import Mathlib

/-!
Verification development for the MyExpoApp remote-recording core.

The definitions below are a shallow embedding of the JavaScript sources:

* `src/app/services/AudioService.js` — the recording engine
  (`startRecording`, `stopRecording`, `triggerRecording`, the auto-stop
  callback scheduled by `triggerRecording`);
* `src/app/services/CommandPollingService.js` — the polling channel and
  command dispatcher (`checkForCommands`, `getDeviceId`,
  `startCommandPolling`);
* `src/app/services/RegistrationService.js` — device-id derivation
  (`generateDeviceId`).

Asynchronous platform calls (`expo-av`, `fetch`, `AsyncStorage`, Expo
device metadata) are modelled by explicit world records that fix the
outcome of each external call site (whether it throws, what it returns).
Module-level mutable state (`recording`, `cachedDeviceId`, ...) is
threaded as explicit state records.  A JavaScript `throw` caught by a
`try`/`catch` in the source is modelled by branching on the
corresponding world flag and executing the catch branch.
-/

namespace MyExpoApp

/-! ## Recording engine state (AudioService.js module state and the device) -/

/-- State of the AudioService module together with the observable state of
the underlying recorder device.  `recording` is the module-level
`recording` variable (the handle, identified by a numeric id);
`nextId` is the allocator for `new Audio.Recording()`; `deviceRec` is the
set of handle ids whose underlying recorder is actually recording
(what `getStatusAsync` reports as `isRecording`); `released` lists the
handle ids on which `stopAndUnloadAsync` has been invoked. -/
structure AudioState where
  recording : Option Nat
  nextId : Nat
  deviceRec : List Nat
  released : List Nat
deriving DecidableEq, Repr

/-- Outcomes of the external calls made during one `startRecording` run:
each field fixes whether the corresponding `await` throws or what it
returns.  `permission` is `requestPermissionsAsync().granted`;
`startEffective` says whether `startAsync` actually put the device into
the recording state (the capture API may silently no-op, which is what
the post-start verification guards against). -/
structure StartWorld where
  statusThrows : Bool
  cleanupThrows : Bool
  permission : Bool
  setModeThrows : Bool
  prepareThrows : Bool
  startThrows : Bool
  startEffective : Bool
  verifyThrows : Bool
deriving DecidableEq, Repr

/-- Result object returned by `startRecording`: the JS literal
`{success, alreadyRecording?, error?}` with an absent field modelled by
the default. -/
structure StartResult where
  success : Bool
  alreadyRecording : Bool := false
  error : Option String := none
deriving DecidableEq, Repr

/-- Error message of the post-start verification failure branch
(AudioService.js line 115). -/
def verifyErrorMsg : String :=
  "Recording start command failed - status shows not recording"

/-- Error message of the permission-denied branch (AudioService.js line 61). -/
def permissionErrorMsg : String :=
  "Audio recording permission not granted"

/-- Best-effort `stopAndUnloadAsync` on handle `h` inside a
`try`/`catch` whose catch branch only logs (AudioService.js lines 40-44
and 47-51): the invocation is recorded in `released`; when it does not
throw the device stops recording on `h`. -/
def cleanupHandle (throws : Bool) (h : Nat) (st : AudioState) : AudioState :=
  if throws then
    { st with released := h :: st.released }
  else
    { st with released := h :: st.released, deviceRec := st.deviceRec.erase h }

/-- Fresh-session part of `startRecording` (AudioService.js lines 56-136),
entered with the module `recording` variable already null: permission
request, audio-mode configuration, allocation of a new `Audio.Recording`,
prepare, start, and the post-start status verification.  Every catch of
the surrounding `try` ends with `recording = null` and a
`{success:false, error}` result. -/
def proceedFresh (w : StartWorld) (st : AudioState) : StartResult × AudioState :=
  if !w.permission then
    ({ success := false, error := some permissionErrorMsg }, st)
  else if w.setModeThrows then
    ({ success := false, error := some "setAudioModeAsync failed" },
     { st with recording := none })
  else
    let h := st.nextId
    let st1 : AudioState :=
      { st with recording := some h, nextId := st.nextId + 1 }
    if w.prepareThrows then
      ({ success := false, error := some "prepareToRecordAsync failed" },
       { st1 with recording := none })
    else if w.startThrows then
      ({ success := false, error := some "startAsync failed" },
       { st1 with recording := none })
    else
      let st2 : AudioState :=
        if w.startEffective then { st1 with deviceRec := h :: st1.deviceRec } else st1
      if w.verifyThrows then
        ({ success := false, error := some "getStatusAsync failed" },
         { st2 with recording := none })
      else if st2.deviceRec.contains h then
        ({ success := true }, st2)
      else
        ({ success := false, error := some verifyErrorMsg },
         { st2 with recording := none })

/-- Shallow embedding of `startRecording` (AudioService.js lines 24-137).
If a handle exists its live status is queried: verified active returns
the idempotent `{success:true, alreadyRecording:true}`; otherwise the
stale handle is cleaned up best-effort (also when the status query
throws) and the module variable cleared before proceeding to a fresh
session. -/
def startRecording (w : StartWorld) (st : AudioState) : StartResult × AudioState :=
  match st.recording with
  | some h =>
      if !w.statusThrows && st.deviceRec.contains h then
        ({ success := true, alreadyRecording := true }, st)
      else
        let st1 := cleanupHandle w.cleanupThrows h st
        proceedFresh w { st1 with recording := none }
  | none => proceedFresh w st

/-- Outcomes of the external calls made during one `stopRecording` run.
`uri` is what `getURI()` returns (`none` models a null URI). -/
structure StopWorld where
  statusThrows : Bool
  cleanupThrows : Bool
  stopThrows : Bool
  uploadThrows : Bool
  uri : Option String
deriving DecidableEq, Repr

/-- Shallow embedding of `stopRecording` (AudioService.js lines 139-189).
With no handle it returns null; with a stale handle it cleans up and
returns null; otherwise the module variable is cleared before
`stopAndUnloadAsync` is issued, and every failure path returns null with
the variable cleared. -/
def stopRecording (w : StopWorld) (st : AudioState) : Option String × AudioState :=
  match st.recording with
  | none => (none, st)
  | some h =>
      if w.statusThrows then
        (none, { st with recording := none })
      else if st.deviceRec.contains h then
        let st1 : AudioState := { st with recording := none }
        if w.stopThrows then
          (none, st1)
        else
          let st2 : AudioState :=
            { st1 with released := h :: st1.released,
                       deviceRec := st1.deviceRec.erase h }
          match w.uri with
          | some u => if w.uploadThrows then (none, st2) else (some u, st2)
          | none => (none, st2)
      else
        let st1 := cleanupHandle w.cleanupThrows h st
        (none, { st1 with recording := none })

/-- Outcomes of the external calls made by the deferred auto-stop
callback scheduled by `triggerRecording`: the status re-query (whose
rejection is converted to `isRecording:false` by the `.catch` in
AudioService.js line 486) and the world used by the inner
`stopRecording` call. -/
structure AutoStopWorld where
  statusThrows : Bool
  stopW : StopWorld
deriving DecidableEq, Repr

/-- Shallow embedding of the deferred auto-stop callback that
`triggerRecording` schedules with `setTimeout` (AudioService.js lines
484-496): it re-checks session liveness and calls `stopRecording` only
when the handle is present and its status still reports recording.  The
boolean reports whether `stopRecording` was invoked. -/
def autoStopCallback (w : AutoStopWorld) (st : AudioState) : Bool × AudioState :=
  match st.recording with
  | none => (false, st)
  | some h =>
      let isRec := if w.statusThrows then false else st.deviceRec.contains h
      if isRec then
        let r := stopRecording w.stopW st
        (true, r.2)
      else
        (false, st)

/-- World in which every external call of `startRecording` succeeds:
permission granted, nothing throws, and `startAsync` actually starts the
device recorder. -/
def StartWorld.ok (w : StartWorld) : Prop :=
  w.permission = true ∧ w.setModeThrows = false ∧ w.prepareThrows = false ∧
  w.startThrows = false ∧ w.startEffective = true ∧ w.verifyThrows = false

instance : DecidablePred StartWorld.ok := fun w => by
  unfold StartWorld.ok; infer_instance

/-- Run `startRecording` over a list of per-call worlds, collecting the
results. -/
def runStarts : List StartWorld → AudioState → List StartResult × AudioState
  | [], st => ([], st)
  | w :: ws, st =>
      let r := startRecording w st
      let rest := runStarts ws r.2
      (r.1 :: rest.1, rest.2)

/-! ## Trigger-based recording (AudioService.js triggerRecording) -/

/-- JavaScript truthiness test for a nullable number: `null`, `undefined`
and `0` are falsy. -/
def jsFalsyInt : Option Int → Bool
  | none => true
  | some d => d == 0

/-- JavaScript `x || dflt` on a nullable number: the default is taken for
every falsy value, including `0`. -/
def jsOrInt (d : Option Int) (dflt : Int) : Int :=
  if jsFalsyInt d then dflt else (d.getD dflt)

/-- Result of one `triggerRecording` call: the returned object together
with the delay, in seconds, of a deferred auto-stop when the call
scheduled one with `setTimeout` (`none` when no timer was scheduled). -/
structure TriggerOutcome where
  res : StartResult
  scheduledStop : Option Int
deriving DecidableEq, Repr

/-- Shallow embedding of `triggerRecording` (AudioService.js lines
445-506).  A `durationSeconds` of null/undefined/0 selects continuous
mode; `startRecording` is called; failure propagates as a structured
failure; `alreadyRecording` is treated as success with no new timer; a
successful fresh start in timed mode schedules the deferred auto-stop
after `durationSeconds` seconds, while continuous mode schedules
nothing. -/
def triggerRecording (durationSeconds : Option Int) (w : StartWorld)
    (st : AudioState) : TriggerOutcome × AudioState :=
  let isContinuous := jsFalsyInt durationSeconds
  let r := startRecording w st
  if !r.1.success then
    ({ res := { success := false,
                error := some (r.1.error.getD "Unknown error starting recording") },
       scheduledStop := none }, r.2)
  else if r.1.alreadyRecording then
    ({ res := { success := true, alreadyRecording := true },
       scheduledStop := none }, r.2)
  else if isContinuous then
    ({ res := { success := true }, scheduledStop := none }, r.2)
  else
    ({ res := { success := true }, scheduledStop := durationSeconds }, r.2)

/-! ## Command channel and dispatcher (CommandPollingService.js) -/

/-- Parsed JSON body of a poll response as consumed by
`checkForCommands`: the fields `hasCommand`, `action` and
`durationSeconds`, each possibly absent. -/
structure CommandJson where
  hasCommand : Bool := false
  action : Option String := none
  durationSeconds : Option Int := none
deriving DecidableEq, Repr

/-- Outcome of the `response.text()` step: either the read throws, or it
yields the raw body text paired with the result of the `JSON.parse`
attempt on that text (`none` when parsing would throw). -/
inductive BodyOutcome where
  | textError : BodyOutcome
  | text (raw : String) (parsed : Option CommandJson) : BodyOutcome
deriving DecidableEq, Repr

/-- Outcome of the `fetch` call of one poll cycle: a transport failure
(the promise rejects) or an HTTP response with a status code and a
body. -/
inductive FetchOutcome where
  | netError : FetchOutcome
  | response (status : Nat) (body : BodyOutcome) : FetchOutcome
deriving DecidableEq, Repr

/-- ASCII lower-casing of one character, the effect of JavaScript
`toLowerCase` on the ASCII range. -/
def lowerChar (c : Char) : Char :=
  if 'A' ≤ c ∧ c ≤ 'Z' then Char.ofNat (c.toNat + 32) else c

/-- JavaScript `trim`: strip leading and trailing whitespace. -/
def trimChars (l : List Char) : List Char :=
  ((l.dropWhile Char.isWhitespace).reverse.dropWhile Char.isWhitespace).reverse

/-- Whether the first list starts with the second. -/
def charsStartWith : List Char → List Char → Bool
  | _, [] => true
  | [], _ :: _ => false
  | c :: cs, d :: ds => c == d && charsStartWith cs ds

/-- HTML-document detection used by `checkForCommands`
(CommandPollingService.js lines 147-148): the trimmed, lower-cased body
starts with a doctype or html tag. -/
def isHtmlBody (raw : String) : Bool :=
  let t := (trimChars raw.data).map lowerChar
  charsStartWith t "<!doctype".data || charsStartWith t "<html".data

/-- Classification of one poll response: either no command is dispatched
(with `anomalous = true` exactly when the branch logs via
`console.error`), or a parsed command object reaches the dispatch
section. -/
inductive PollClass where
  | noCommand (anomalous : Bool) : PollClass
  | commandReceived (data : CommandJson) : PollClass
deriving DecidableEq, Repr

/-- Shallow embedding of the response-classification part of
`checkForCommands` (CommandPollingService.js lines 129-209 and the
no-command logging at lines 251-264): transport failures and body-read
failures are absorbed; an HTML body is a silent no-command on 404 and an
anomaly otherwise; a non-empty body that fails `JSON.parse` is a silent
no-command on 404 and an anomaly otherwise; an empty body is silent on
404 and 200 and an anomaly on other statuses; parsed data reaches the
dispatcher only when `hasCommand` and `action` are both set. -/
def classifyPoll : FetchOutcome → PollClass
  | .netError => .noCommand true
  | .response status body =>
      match body with
      | .textError => .noCommand true
      | .text raw parsed =>
          if isHtmlBody raw then
            if status == 404 then .noCommand false else .noCommand true
          else if raw ≠ "" then
            match parsed with
            | some data =>
                if data.hasCommand && data.action.isSome then
                  .commandReceived data
                else
                  .noCommand false
            | none =>
                if status == 404 then .noCommand false else .noCommand true
          else
            if status == 404 then .noCommand false
            else if status != 200 then .noCommand true
            else .noCommand false

/-- World of one full poll cycle: the fetch outcome and the worlds of the
engine calls a dispatched command would make. -/
structure PollWorld where
  fetch : FetchOutcome
  startW : StartWorld
  stopW : StopWorld
deriving DecidableEq, Repr

/-- Observable effect of one poll cycle. -/
inductive DispatchEffect where
  | noCommand (anomalous : Bool) : DispatchEffect
  | started (duration : Int) (out : TriggerOutcome) : DispatchEffect
  | stopped (uri : Option String) : DispatchEffect
  | unknownAction (a : String) : DispatchEffect
deriving DecidableEq, Repr

/-- Shallow embedding of a full `checkForCommands` cycle
(CommandPollingService.js lines 115-276).  The function is total: every
branch of the source is wrapped in `try`/`catch` blocks that log and
return, so a poll cycle always resolves to a `DispatchEffect` and never
raises.  A start command computes `duration = durationSeconds || 30`
(line 216) and calls `triggerRecording` with it; a stop command calls
`stopRecording`; an unrecognized action is logged and ignored; engine
exceptions are caught and absorbed. -/
def checkForCommands (w : PollWorld) (st : AudioState) :
    DispatchEffect × AudioState :=
  match classifyPoll w.fetch with
  | .noCommand a => (.noCommand a, st)
  | .commandReceived data =>
      let act := data.action.getD ""
      if act == "start recording" || act == "start" then
        let duration := jsOrInt data.durationSeconds 30
        let r := triggerRecording (some duration) w.startW st
        (.started duration r.1, r.2)
      else if act == "stop recording" || act == "stop" then
        let r := stopRecording w.stopW st
        (.stopped r.1, r.2)
      else
        (.unknownAction act, st)

/-! ## Polling cadence (CommandPollingService.js startCommandPolling)

`startCommandPolling` awaits one immediate `checkForCommands` and then
installs `setInterval(async () => { await checkForCommands(); }, 2000)`.
Under JavaScript event-loop semantics the interval fires every 2000 ms
regardless of whether the previous asynchronous cycle has resolved: the
`await` only sequences the body of each individual callback invocation.
The timing model below records this: cycle 0 is the initial awaited
poll, started at time 0; the interval is installed when it completes
(after `dur 0` ms); interval cycle `k+1` starts `2000 * (k+1)` ms after
installation, independent of every other cycle's duration. -/

/-- Start time, in milliseconds, of poll cycle `i` given the duration
function `dur` (cycle 0 is the initial awaited poll). -/
def cycleStart (dur : Nat → Nat) : Nat → Nat
  | 0 => 0
  | k + 1 => dur 0 + 2000 * (k + 1)

/-- Poll cycle `i` is in flight at time `t` when `t` lies between its
start and its completion. -/
def inFlight (dur : Nat → Nat) (i t : Nat) : Prop :=
  cycleStart dur i ≤ t ∧ t < cycleStart dur i + dur i

instance (dur : Nat → Nat) (i t : Nat) : Decidable (inFlight dur i t) := by
  unfold inFlight; infer_instance

/-! ## Device identity (RegistrationService.generateDeviceId and
CommandPollingService.getDeviceId) -/

/-- JavaScript truthiness for a nullable string: `null`, `undefined` and
the empty string are falsy, so `s || dflt` yields the default for all of
them. -/
def jsOrStr (s : Option String) (dflt : String) : String :=
  match s with
  | none => dflt
  | some v => if v = "" then dflt else v

/-- Character-list worker for `collapseRuns`: each maximal run of
characters satisfying `p` is replaced by one copy of `repl`. -/
def collapseRunsAux (p : Char → Bool) (repl : String) :
    List Char → Bool → String
  | [], _ => ""
  | c :: cs, inRun =>
      if p c then
        (if inRun then "" else repl) ++ collapseRunsAux p repl cs true
      else
        String.singleton c ++ collapseRunsAux p repl cs false

/-- Replace every maximal run of characters satisfying `p` in `s` with
one copy of `repl` — the behaviour of the JavaScript
`s.replace(/X+/g, repl)` for a character class `X`. -/
def collapseRuns (p : Char → Bool) (repl : String) (s : String) : String :=
  collapseRunsAux p repl s.data false

/-- Device-metadata fields of the record produced by
`collectDeviceInfo` that `generateDeviceId` consumes. -/
structure DeviceInfo where
  manufacturer : Option String := none
  modelName : Option String := none
deriving DecidableEq, Repr

/-- Shallow embedding of `RegistrationService.generateDeviceId`
(RegistrationService.js lines 256-270): whitespace runs are removed from
the manufacturer (`replace` with the empty string) and replaced by
single underscores in the model, with defaults `Apple` and `Unknown`,
and the literal suffix `iOS` is appended unconditionally — the running
platform is not consulted.  Runs of `\s` in the source regex are
modelled by `Char.isWhitespace`. -/
def generateDeviceId (info : DeviceInfo) : String :=
  let manufacturer := collapseRuns Char.isWhitespace "" (jsOrStr info.manufacturer "Apple")
  let model := collapseRuns Char.isWhitespace "_" (jsOrStr info.modelName "Unknown")
  manufacturer ++ "_" ++ model ++ "_iOS"

/-- Modelled from the spec: the device-id format the specification
states in its data model — manufacturer and model tokens with every run
of non-alphanumeric characters normalized to an underscore, joined with
the platform tag (`ios` or `android`) of the running platform.  This
definition follows the words of the spec and exists only to be compared
with `generateDeviceId`, which is translated from the source. -/
def specDeviceId (info : DeviceInfo) (platformTag : String) : String :=
  let manufacturer :=
    collapseRuns (fun c => !c.isAlphanum) "_" (jsOrStr info.manufacturer "Apple")
  let model :=
    collapseRuns (fun c => !c.isAlphanum) "_" (jsOrStr info.modelName "Unknown")
  manufacturer ++ "_" ++ model ++ "_" ++ platformTag

/-- Module state of the device-id resolution in
CommandPollingService.js: the process-local cache `cachedDeviceId`, the
log-once flag, and the durable `AsyncStorage` value under
`@registered_device_id`. -/
structure IdState where
  cachedDeviceId : Option String
  deviceIdLogged : Bool
  storage : Option String
deriving DecidableEq, Repr

/-- Outcomes of the external calls of one `getDeviceId` run: whether
each storage or metadata call throws, the metadata a successful
collection returns, and the `Platform.OS` / `Date.now()` values the
fallback identifier uses. -/
structure IdWorld where
  getItemThrows : Bool
  collectThrows : Bool
  setItemThrows : Bool
  deviceInfo : DeviceInfo
  platformOS : String
  now : Nat
deriving DecidableEq, Repr

/-- How one `getDeviceId` call obtained its identifier. -/
inductive IdSource where
  | usedCache : IdSource
  | readStorage : IdSource
  | derived : IdSource
  | fallback : IdSource
deriving DecidableEq, Repr

/-- Fallback branch of `getDeviceId` (CommandPollingService.js lines
88-95): a synthesized identifier from the platform tag and the current
timestamp, cached in-process but not persisted. -/
def deviceIdFallback (w : IdWorld) (st : IdState) :
    String × IdSource × IdState :=
  let fallbackId := "Fallback_" ++ w.platformOS ++ "_" ++ toString w.now
  (fallbackId, .fallback, { st with cachedDeviceId := some fallbackId })

/-- Shallow embedding of `getDeviceId` (CommandPollingService.js lines
57-96): the process-local cache is consulted first; then durable
storage; then the identifier is derived from device metadata and
persisted; any throw in the body falls to the fallback branch.  The
`IdSource` component reports which branch produced the identifier. -/
def getDeviceId (w : IdWorld) (st : IdState) : String × IdSource × IdState :=
  match st.cachedDeviceId with
  | some id => (id, .usedCache, st)
  | none =>
      if w.getItemThrows then deviceIdFallback w st
      else
        match st.storage with
        | some stored =>
            (stored, .readStorage,
             { st with cachedDeviceId := some stored, deviceIdLogged := true })
        | none =>
            let st1 : IdState := { st with deviceIdLogged := true }
            if w.collectThrows then deviceIdFallback w st1
            else
              let id := generateDeviceId w.deviceInfo
              if w.setItemThrows then deviceIdFallback w st1
              else
                (id, .derived,
                 { st1 with cachedDeviceId := some id, storage := some id })

/-- Process restart: the process-local cache and log flag are reset
while durable storage persists. -/
def restartProcess (st : IdState) : IdState :=
  { cachedDeviceId := none, deviceIdLogged := false, storage := st.storage }

/-! ## Concrete fixtures used by witnesses and counterexamples -/

/-- Initial engine state: no handle, no allocated ids, idle device. -/
def initAudioState : AudioState :=
  { recording := none, nextId := 0, deviceRec := [], released := [] }

/-- World in which every external call of a start succeeds. -/
def goodStartWorld : StartWorld :=
  { statusThrows := false, cleanupThrows := false, permission := true,
    setModeThrows := false, prepareThrows := false, startThrows := false,
    startEffective := true, verifyThrows := false }

/-- World in which `startAsync` silently fails to start the device, so
the post-start verification observes a non-recording status. -/
def verifyFailWorld : StartWorld :=
  { goodStartWorld with startEffective := false }

/-- World in which the microphone permission is denied. -/
def deniedWorld : StartWorld :=
  { goodStartWorld with permission := false }

/-- World in which every external call of a stop succeeds and the
recorder yields a file URI. -/
def goodStopWorld : StopWorld :=
  { statusThrows := false, cleanupThrows := false, stopThrows := false,
    uploadThrows := false, uri := some "recording.m4a" }

/-! ## Engine lemmas -/

/-- A fresh start from the idle state in an all-good world allocates
exactly one handle, starts the device on it and returns plain success. -/
theorem startRecording_fresh (w : StartWorld) (st : AudioState)
    (hidle : st.recording = none) (hok : w.ok) :
    startRecording w st =
      ({ success := true },
       { st with recording := some st.nextId, nextId := st.nextId + 1,
                 deviceRec := st.nextId :: st.deviceRec }) := by
  obtain ⟨h1, h2, h3, h4, h5, h6⟩ := hok
  simp [startRecording, hidle, proceedFresh, h1, h2, h3, h4, h5, h6]

/-- A start while a handle exists and its status query reports recording
is an idempotent no-op returning `alreadyRecording`. -/
theorem startRecording_already (w : StartWorld) (st : AudioState) (h : Nat)
    (hrec : st.recording = some h) (hlive : st.deviceRec.contains h = true)
    (hst : w.statusThrows = false) :
    startRecording w st = ({ success := true, alreadyRecording := true }, st) := by
  have hm : h ∈ st.deviceRec := by simpa using hlive
  simp [startRecording, hrec, hst, hlive, hm]

/-- Running any number of starts from a state with a verified-recording
handle leaves the state untouched and answers `alreadyRecording` each
time. -/
theorem runStarts_already (ws : List StartWorld) (st : AudioState) (h : Nat)
    (hrec : st.recording = some h) (hlive : st.deviceRec.contains h = true)
    (hst : ∀ w ∈ ws, w.statusThrows = false) :
    runStarts ws st =
      (ws.map fun _ => ({ success := true, alreadyRecording := true } : StartResult),
       st) := by
  induction ws with
  | nil => simp [runStarts]
  | cons w ws ih =>
      have hw : w.statusThrows = false := hst w (by simp)
      have hrest := ih (fun v hv => hst v (by simp [hv]))
      simp [runStarts, startRecording_already w st h hrec hlive hw, hrest]

/-- C1: for every sequence of `N ≥ 2` consecutive start requests with no
intervening stop (an all-good world for the first request, status
queries that do not throw for the rest), exactly one session is created:
the first call returns plain success (`alreadyRecording` absent), every
subsequent call returns `success` with `alreadyRecording:true`, the
handle allocator advances by exactly one, and the final state still
holds the single handle allocated by the first call. -/
theorem c1_idempotent_start (w0 : StartWorld) (ws : List StartWorld)
    (st0 : AudioState)
    (hidle : st0.recording = none) (hok : w0.ok)
    (htail : ∀ w ∈ ws, w.statusThrows = false)
    (_hN : 1 ≤ ws.length) :
    runStarts (w0 :: ws) st0 =
      (({ success := true } : StartResult) ::
         ws.map (fun _ => ({ success := true, alreadyRecording := true } : StartResult)),
       { st0 with recording := some st0.nextId, nextId := st0.nextId + 1,
                  deviceRec := st0.nextId :: st0.deviceRec }) := by
  have hfirst := startRecording_fresh w0 st0 hidle hok
  have hlive :
      ({ st0 with recording := some st0.nextId, nextId := st0.nextId + 1,
                  deviceRec := st0.nextId :: st0.deviceRec } :
        AudioState).deviceRec.contains st0.nextId = true := by
    simp [List.contains_cons]
  have hrest := runStarts_already ws _ st0.nextId rfl hlive htail
  simp [runStarts, hfirst, hrest]

/-- Witness for C1 at a concrete input: two consecutive good starts from
the initial state. -/
theorem c1_witness :
    runStarts [goodStartWorld, goodStartWorld] initAudioState =
      ([{ success := true }, { success := true, alreadyRecording := true }],
       { recording := some 0, nextId := 1, deviceRec := [0], released := [] }) := by
  have := c1_idempotent_start goodStartWorld [goodStartWorld] initAudioState
    rfl (by constructor <;> simp [goodStartWorld]) (by simp [goodStartWorld])
    (by simp)
  simpa [initAudioState] using this

/-- C3 counterexample: when the post-start verification fails
(`startAsync` silently no-ops), `startRecording` returns the structured
failure and clears the handle, but no release is issued: the handle id 0
was allocated (the allocator advanced to 1) yet `released` stays empty,
refuting the claim that start releases the handle in this branch. -/
theorem c3_counterexample :
    startRecording verifyFailWorld initAudioState =
      ({ success := false, error := some verifyErrorMsg },
       { recording := none, nextId := 1, deviceRec := [], released := [] }) := by
  simp [startRecording, initAudioState, verifyFailWorld, goodStartWorld,
    proceedFresh]

/-- C3 as amended: whenever the status re-query immediately after the
start operation does not confirm the session is active, `startRecording`
clears the handle and returns `{success:false, error: verification
message}` without throwing — but it does not issue a release on the
handle: the post-state differs from the pre-state only in the advanced
allocator, with `released` (and the device set) unchanged. -/
theorem c3_verification_failure (w : StartWorld) (st : AudioState)
    (hidle : st.recording = none)
    (hperm : w.permission = true) (hsm : w.setModeThrows = false)
    (hp : w.prepareThrows = false) (hs : w.startThrows = false)
    (heff : w.startEffective = false) (hv : w.verifyThrows = false)
    (hfresh : st.deviceRec.contains st.nextId = false) :
    startRecording w st =
      ({ success := false, error := some verifyErrorMsg },
       { st with recording := none, nextId := st.nextId + 1 }) := by
  have hm : st.nextId ∉ st.deviceRec := by simpa using hfresh
  simp [startRecording, hidle, proceedFresh, hperm, hsm, hp, hs, heff, hv, hm]

/-- Witness for C3 as amended at a concrete input. -/
theorem c3_witness :
    startRecording verifyFailWorld initAudioState =
      ({ success := false, error := some verifyErrorMsg },
       { recording := none, nextId := 1, deviceRec := [], released := [] }) := by
  have := c3_verification_failure verifyFailWorld initAudioState rfl rfl rfl
    rfl rfl rfl rfl (by simp [initAudioState])
  simpa [initAudioState] using this

/-- C4: from every state whose handle exists but whose status query
reports not-recording, `startRecording` attempts a best-effort release
of the stale handle (recorded in `released` whether or not the release
throws), clears it, and proceeds to create a fresh session; the call
returns plain success and no error reaches the caller. -/
theorem c4_stale_handle_recovery (w : StartWorld) (st : AudioState) (h : Nat)
    (hrec : st.recording = some h)
    (hstale : st.deviceRec.contains h = false)
    (hst : w.statusThrows = false) (hok : w.ok) :
    (startRecording w st).1 = { success := true } ∧
    (startRecording w st).2.recording = some st.nextId ∧
    (startRecording w st).2.nextId = st.nextId + 1 ∧
    (startRecording w st).2.released.contains h = true := by
  obtain ⟨h1, h2, h3, h4, h5, h6⟩ := hok
  have hm : h ∉ st.deviceRec := by simpa using hstale
  cases hcl : w.cleanupThrows <;>
    simp [startRecording, hrec, hst, hm, cleanupHandle, hcl, proceedFresh,
      h1, h2, h3, h4, h5, h6]

/-- Witness for C4 at a concrete input: a stale handle 7 whose release
throws (best-effort: the failure is not fatal). -/
theorem c4_witness :
    (startRecording { goodStartWorld with cleanupThrows := true }
        { recording := some 7, nextId := 3, deviceRec := [], released := [] }).1 =
      { success := true } ∧
    (startRecording { goodStartWorld with cleanupThrows := true }
        { recording := some 7, nextId := 3, deviceRec := [], released := [] }).2.recording =
      some 3 ∧
    (startRecording { goodStartWorld with cleanupThrows := true }
        { recording := some 7, nextId := 3, deviceRec := [], released := [] }).2.nextId =
      4 ∧
    (startRecording { goodStartWorld with cleanupThrows := true }
        { recording := some 7, nextId := 3, deviceRec := [], released := [] }).2.released.contains 7 =
      true := by
  have := c4_stale_handle_recovery { goodStartWorld with cleanupThrows := true }
    { recording := some 7, nextId := 3, deviceRec := [], released := [] } 7
    rfl (by simp) rfl (by constructor <;> simp [goodStartWorld])
  simpa using this

/-- Failure branches of the fresh-start path all clear the module
handle: when `proceedFresh` is entered with a null handle and reports
failure, the post-state handle is null. -/
theorem proceedFresh_failure_clears (w : StartWorld) (st : AudioState)
    (hidle : st.recording = none)
    (hfail : (proceedFresh w st).1.success = false) :
    (proceedFresh w st).2.recording = none := by
  by_cases hperm : w.permission = true
  · by_cases hsm : w.setModeThrows = true
    · simp [proceedFresh, hperm, hsm]
    · by_cases hp : w.prepareThrows = true
      · simp [proceedFresh, hperm, hsm, hp]
      · by_cases hs : w.startThrows = true
        · simp [proceedFresh, hperm, hsm, hp, hs]
        · by_cases hv : w.verifyThrows = true
          · simp [proceedFresh, hperm, hsm, hp, hs, hv]
          · by_cases heff : w.startEffective = true
            · simp [proceedFresh, hperm, hsm, hp, hs, hv, heff] at hfail
            · by_cases hcont : st.nextId ∈ st.deviceRec
              · simp [proceedFresh, hperm, hsm, hp, hs, hv, heff, hcont] at hfail
              · simp [proceedFresh, hperm, hsm, hp, hs, hv, heff, hcont]
  · simp [proceedFresh, hperm, hidle]

/-- C10: start-failure atomicity — whenever `startRecording` returns
`success:false`, whatever the reason (permission denied, verification
failure, or any step throwing), the module-level handle is null on
return, so the next start attempt begins with no leftover handle. -/
theorem c10_start_failure_atomicity (w : StartWorld) (st : AudioState)
    (hfail : (startRecording w st).1.success = false) :
    (startRecording w st).2.recording = none := by
  cases hrec : st.recording with
  | none =>
      have e : startRecording w st = proceedFresh w st := by
        simp [startRecording, hrec]
      rw [e] at hfail ⊢
      exact proceedFresh_failure_clears w st hrec hfail
  | some h =>
      cases hstv : w.statusThrows with
      | true =>
          have e : startRecording w st =
              proceedFresh w
                { cleanupHandle w.cleanupThrows h st with recording := none } := by
            simp [startRecording, hrec, hstv]
          rw [e] at hfail ⊢
          exact proceedFresh_failure_clears w _ rfl hfail
      | false =>
          by_cases hmem : h ∈ st.deviceRec
          · have e : startRecording w st =
                ({ success := true, alreadyRecording := true }, st) := by
              simp [startRecording, hrec, hstv, hmem]
            rw [e] at hfail
            simp at hfail
          · have e : startRecording w st =
                proceedFresh w
                  { cleanupHandle w.cleanupThrows h st with recording := none } := by
              simp [startRecording, hrec, hstv, hmem]
            rw [e] at hfail ⊢
            exact proceedFresh_failure_clears w _ rfl hfail

/-- Witness for C10 at a concrete input: permission denied. -/
theorem c10_witness :
    (startRecording deniedWorld initAudioState).2.recording = none :=
  c10_start_failure_atomicity deniedWorld initAudioState (by
    simp [startRecording, deniedWorld, goodStartWorld, initAudioState,
      proceedFresh])

/-- Every `stopRecording` run ends with the module handle cleared,
whatever branch it takes. -/
theorem stopRecording_clears (w : StopWorld) (st : AudioState) :
    (stopRecording w st).2.recording = none := by
  cases hrec : st.recording with
  | none => simp [stopRecording, hrec]
  | some h =>
      cases hstv : w.statusThrows with
      | true => simp [stopRecording, hrec, hstv]
      | false =>
          by_cases hmem : h ∈ st.deviceRec
          · cases hth : w.stopThrows with
            | true => simp [stopRecording, hrec, hstv, hmem, hth]
            | false =>
                cases huri : w.uri with
                | none => simp [stopRecording, hrec, hstv, hmem, hth, huri]
                | some u =>
                    cases hup : w.uploadThrows <;>
                      simp [stopRecording, hrec, hstv, hmem, hth, huri, hup]
          · simp [stopRecording, hrec, hstv, hmem, cleanupHandle]

/-- C6: auto-stop respects manual stop — after any completed
`stopRecording` (manual or remote), the deferred auto-stop callback
scheduled by a timed `triggerRecording` observes the handle absent,
performs no stop action, and leaves the state unchanged: the session is
never stopped twice and no error is raised. -/
theorem c6_autostop_respects_manual_stop (ws : StopWorld) (st : AudioState)
    (wa : AutoStopWorld) :
    autoStopCallback wa (stopRecording ws st).2 = (false, (stopRecording ws st).2) := by
  have h := stopRecording_clears ws st
  simp [autoStopCallback, h]

/-- C2 counterexample: a dashboard start command carrying
`durationSeconds: 0` is dispatched with duration 30 — JavaScript
`data.durationSeconds || 30` defaults on the falsy value 0 — and a
deferred auto-stop is scheduled after 30 seconds, so the command does
not begin a continuous recording as the claim states. -/
theorem c2_counterexample :
    checkForCommands
        { fetch := .response 200 (.text "json"
            (some { hasCommand := true, action := some "start",
                    durationSeconds := some 0 })),
          startW := goodStartWorld, stopW := goodStopWorld }
        initAudioState =
      (.started 30 { res := { success := true }, scheduledStop := some 30 },
       { recording := some 0, nextId := 1, deviceRec := [0], released := [] }) := by
  decide

/-- The duration the dispatcher hands to the engine is never zero:
JavaScript `durationSeconds || 30` replaces every falsy value, including
0, with the default. -/
theorem jsOrInt_default_ne_zero (d : Option Int) : jsOrInt d 30 ≠ 0 := by
  cases d with
  | none => simp [jsOrInt, jsFalsyInt]
  | some v =>
      by_cases hv : v = 0 <;> simp [jsOrInt, jsFalsyInt, hv]

/-- C2 as amended: the dispatcher computes
`duration = durationSeconds || 30`, defaulting on absent, null and zero
alike, so a dashboard start command with `durationSeconds = 0` begins a
timed recording with a deferred auto-stop scheduled after 30 seconds —
never a continuous one; only `triggerRecording` invoked directly with a
null or zero duration selects continuous mode and schedules no deferred
auto-stop. -/
theorem c2_duration_semantics (d : Option Int) (raw : String) (w : PollWorld)
    (st : AudioState) (dc : Option Int)
    (hfetch : w.fetch = .response 200 (.text raw
      (some { hasCommand := true, action := some "start", durationSeconds := d })))
    (hraw : isHtmlBody raw = false) (hne : raw ≠ "")
    (hok : w.startW.ok) (hidle : st.recording = none)
    (hdc : jsFalsyInt dc = true) :
    checkForCommands w st =
      (.started (jsOrInt d 30)
        { res := { success := true }, scheduledStop := some (jsOrInt d 30) },
       { st with recording := some st.nextId, nextId := st.nextId + 1,
                 deviceRec := st.nextId :: st.deviceRec }) ∧
    jsOrInt (some 0) 30 = 30 ∧
    (triggerRecording dc w.startW st).1.scheduledStop = none := by
  have hfresh := startRecording_fresh w.startW st hidle hok
  refine ⟨?_, by simp [jsOrInt, jsFalsyInt], ?_⟩
  · have hnz : jsFalsyInt (some (jsOrInt d 30)) = false := by
      have := jsOrInt_default_ne_zero d
      simp [jsFalsyInt, this]
    simp [checkForCommands, classifyPoll, hfetch, hraw, hne, triggerRecording,
      hfresh, hnz]
  · simp [triggerRecording, hdc, hfresh]

/-- Witness for C2 as amended at a concrete input: a dashboard start
command with `durationSeconds: 0` against the idle engine. -/
theorem c2_witness :
    checkForCommands
        { fetch := .response 200 (.text "json"
            (some { hasCommand := true, action := some "start",
                    durationSeconds := some 0 })),
          startW := goodStartWorld, stopW := goodStopWorld }
        initAudioState =
      (.started 30 { res := { success := true }, scheduledStop := some 30 },
       { recording := some 0, nextId := 1, deviceRec := [0], released := [] }) ∧
    (triggerRecording (some 0) goodStartWorld initAudioState).1.scheduledStop =
      none := by
  have := c2_duration_semantics (some 0) "json"
    { fetch := .response 200 (.text "json"
        (some { hasCommand := true, action := some "start",
                durationSeconds := some 0 })),
      startW := goodStartWorld, stopW := goodStopWorld }
    initAudioState (some 0) rfl (by decide) (by decide)
    (by constructor <;> simp [goodStartWorld]) rfl (by simp [jsFalsyInt])
  refine ⟨?_, this.2.2⟩
  have h1 := this.1
  simpa [initAudioState, jsOrInt, jsFalsyInt] using h1

/-- C5: poll response classification over the claimed status/body
combinations.  For any HTML body `rawH`, any malformed non-JSON
non-HTML body `rawM`, and any parsed command object with `hasCommand`
and an action: a 404 with an empty, HTML or malformed body is a silent
no-command; a 200 with a malformed or HTML body is an anomaly (logged
via `console.error`) treated as no-command; a 200 with valid JSON
carrying `hasCommand` and `action` reaches the dispatcher; valid JSON
without `hasCommand` and an empty 200 body are silent no-commands; and a
transport failure is absorbed into a logged no-command, so the polling
loop is never interrupted — `checkForCommands` is a total function and
no branch raises. -/
theorem c5_poll_classification (rawH rawM : String) (data noCmd : CommandJson)
    (a : String) (s : Nat)
    (hH : isHtmlBody rawH = true)
    (hM : isHtmlBody rawM = false) (hMne : rawM ≠ "")
    (hcmd : data.hasCommand = true) (ha : data.action = some a)
    (hnc : noCmd.hasCommand = false) :
    classifyPoll (.response 404 (.text "" none)) = .noCommand false ∧
    classifyPoll (.response 404 (.text rawH none)) = .noCommand false ∧
    classifyPoll (.response 404 (.text rawM none)) = .noCommand false ∧
    classifyPoll (.response 200 (.text rawM none)) = .noCommand true ∧
    classifyPoll (.response 200 (.text rawH none)) = .noCommand true ∧
    classifyPoll (.response 200 (.text rawM (some data))) = .commandReceived data ∧
    classifyPoll (.response s (.text rawM (some noCmd))) = .noCommand false ∧
    classifyPoll (.response 200 (.text "" none)) = .noCommand false ∧
    (∀ w : PollWorld, ∀ st : AudioState, w.fetch = .netError →
      checkForCommands w st = (.noCommand true, st)) := by
  refine ⟨?_, ?_, ?_, ?_, ?_, ?_, ?_, ?_, ?_⟩
  · decide
  · simp [classifyPoll, hH]
  · simp [classifyPoll, hM, hMne]
  · simp [classifyPoll, hM, hMne]
  · simp [classifyPoll, hH]
  · simp [classifyPoll, hM, hMne, hcmd, ha]
  · simp [classifyPoll, hM, hMne, hnc]
  · decide
  · intro w st hw
    simp [checkForCommands, hw, classifyPoll]

/-- Witness for C5 at the concrete bodies of the spec's test table: an
HTML 404 page, the malformed body `not json`, and a valid start command
with a 5-second duration. -/
theorem c5_witness :
    classifyPoll (.response 404 (.text "" none)) = .noCommand false ∧
    classifyPoll (.response 404
      (.text "<!doctype html><h1>404 Not Found</h1>" none)) = .noCommand false ∧
    classifyPoll (.response 404 (.text "not json" none)) = .noCommand false ∧
    classifyPoll (.response 200 (.text "not json" none)) = .noCommand true ∧
    classifyPoll (.response 200
      (.text "<!doctype html><h1>404 Not Found</h1>" none)) = .noCommand true ∧
    classifyPoll (.response 200 (.text "not json"
      (some { hasCommand := true, action := some "start",
              durationSeconds := some 5 }))) =
      .commandReceived { hasCommand := true, action := some "start",
                         durationSeconds := some 5 } ∧
    classifyPoll (.response 200 (.text "not json"
      (some { hasCommand := false }))) = .noCommand false ∧
    classifyPoll (.response 200 (.text "" none)) = .noCommand false ∧
    (∀ w : PollWorld, ∀ st : AudioState, w.fetch = .netError →
      checkForCommands w st = (.noCommand true, st)) := by
  have h := c5_poll_classification "<!doctype html><h1>404 Not Found</h1>"
    "not json" { hasCommand := true, action := some "start", durationSeconds := some 5 }
    { hasCommand := false } "start" 200
    (by decide) (by decide) (by decide) rfl rfl rfl
  exact ⟨h.1, h.2.1, h.2.2.1, h.2.2.2.1, h.2.2.2.2.1, h.2.2.2.2.2.1,
    h.2.2.2.2.2.2.1, h.2.2.2.2.2.2.2.1, h.2.2.2.2.2.2.2.2⟩

/-! ## Device identity theorems -/

/-- Every `getDeviceId` call leaves the process-local cache holding
exactly the identifier it returned, whatever branch produced it. -/
theorem getDeviceId_caches (w : IdWorld) (st : IdState) :
    (getDeviceId w st).2.2.cachedDeviceId = some (getDeviceId w st).1 := by
  cases hc : st.cachedDeviceId with
  | some c => simp [getDeviceId, hc]
  | none =>
      cases hg : w.getItemThrows with
      | true => simp [getDeviceId, hc, hg, deviceIdFallback]
      | false =>
          cases hs : st.storage with
          | some v => simp [getDeviceId, hc, hg, hs]
          | none =>
              cases hcol : w.collectThrows with
              | true => simp [getDeviceId, hc, hg, hs, hcol, deviceIdFallback]
              | false =>
                  cases hset : w.setItemThrows <;>
                    simp [getDeviceId, hc, hg, hs, hcol, hset, deviceIdFallback]

/-- A cache hit returns the cached identifier and leaves the state
untouched. -/
theorem getDeviceId_cached (w : IdWorld) (st : IdState) (id : String)
    (h : st.cachedDeviceId = some id) :
    getDeviceId w st = (id, .usedCache, st) := by
  simp [getDeviceId, h]

/-- When the identifier came from durable storage or from derivation
followed by persistence, the post-state durable storage holds exactly
that identifier. -/
theorem getDeviceId_persists (w : IdWorld) (st : IdState)
    (hsrc : (getDeviceId w st).2.1 = IdSource.readStorage ∨
      (getDeviceId w st).2.1 = IdSource.derived) :
    (getDeviceId w st).2.2.storage = some (getDeviceId w st).1 := by
  cases hc : st.cachedDeviceId with
  | some c => simp [getDeviceId, hc] at hsrc
  | none =>
      cases hg : w.getItemThrows with
      | true => simp [getDeviceId, hc, hg, deviceIdFallback] at hsrc
      | false =>
          cases hs : st.storage with
          | some v => simp [getDeviceId, hc, hg, hs]
          | none =>
              cases hcol : w.collectThrows with
              | true =>
                  simp [getDeviceId, hc, hg, hs, hcol, deviceIdFallback] at hsrc
              | false =>
                  cases hset : w.setItemThrows with
                  | true =>
                      simp [getDeviceId, hc, hg, hs, hcol, hset,
                        deviceIdFallback] at hsrc
                  | false => simp [getDeviceId, hc, hg, hs, hcol, hset]

/-- C7: device identity stability — once `getDeviceId` has produced an
identifier, every later call in the same process is a cache hit
returning the identical string with the state untouched, whatever the
underlying metadata of the later call would yield; and when the
identifier was read from durable storage or derived-and-persisted, a
process restart (cache cleared, storage kept) still returns the
identical string provided the durable read succeeds. -/
theorem c7_device_identity_stability (w w2 w3 : IdWorld) (st : IdState) :
    (∀ id src st', getDeviceId w st = (id, src, st') →
      getDeviceId w2 st' = (id, .usedCache, st')) ∧
    (∀ id src st', getDeviceId w st = (id, src, st') →
      (src = IdSource.readStorage ∨ src = IdSource.derived) →
      w3.getItemThrows = false →
      (getDeviceId w3 (restartProcess st')).1 = id) := by
  constructor
  · intro id src st' h
    have hcache := getDeviceId_caches w st
    rw [h] at hcache
    exact getDeviceId_cached w2 st' id hcache
  · intro id src st' h hsrc hw3
    have hsrc' : (getDeviceId w st).2.1 = IdSource.readStorage ∨
        (getDeviceId w st).2.1 = IdSource.derived := by
      rw [h]; exact hsrc
    have hstore : st'.storage = some id := by
      have hp := getDeviceId_persists w st hsrc'
      rw [h] at hp
      exact hp
    have hrestart : restartProcess st' =
        { cachedDeviceId := none, deviceIdLogged := false, storage := some id } := by
      simp [restartProcess, hstore]
    rw [hrestart]
    simp [getDeviceId, hw3]

/-- Witness for C7 at a concrete input: an idle state deriving
`Apple_iPhone_12_iOS`, a second call whose metadata changed, and a
restart. -/
theorem c7_witness :
    getDeviceId
        { getItemThrows := false, collectThrows := false, setItemThrows := false,
          deviceInfo := { manufacturer := some "Samsung", modelName := some "Galaxy" },
          platformOS := "ios", now := 99 }
        { cachedDeviceId := some "Apple_iPhone_12_iOS", deviceIdLogged := true,
          storage := some "Apple_iPhone_12_iOS" } =
      ("Apple_iPhone_12_iOS", .usedCache,
       { cachedDeviceId := some "Apple_iPhone_12_iOS", deviceIdLogged := true,
         storage := some "Apple_iPhone_12_iOS" }) ∧
    (getDeviceId
        { getItemThrows := false, collectThrows := false, setItemThrows := false,
          deviceInfo := { manufacturer := some "Samsung", modelName := some "Galaxy" },
          platformOS := "ios", now := 99 }
        (restartProcess
          { cachedDeviceId := some "Apple_iPhone_12_iOS", deviceIdLogged := true,
            storage := some "Apple_iPhone_12_iOS" })).1 = "Apple_iPhone_12_iOS" := by
  have h := c7_device_identity_stability
    { getItemThrows := false, collectThrows := false, setItemThrows := false,
      deviceInfo := { manufacturer := some "Apple", modelName := some "iPhone 12" },
      platformOS := "ios", now := 7 }
    { getItemThrows := false, collectThrows := false, setItemThrows := false,
      deviceInfo := { manufacturer := some "Samsung", modelName := some "Galaxy" },
      platformOS := "ios", now := 99 }
    { getItemThrows := false, collectThrows := false, setItemThrows := false,
      deviceInfo := { manufacturer := some "Samsung", modelName := some "Galaxy" },
      platformOS := "ios", now := 99 }
    { cachedDeviceId := none, deviceIdLogged := false, storage := none }
  refine ⟨?_, ?_⟩
  · exact h.1 "Apple_iPhone_12_iOS" .derived
      { cachedDeviceId := some "Apple_iPhone_12_iOS", deviceIdLogged := true,
        storage := some "Apple_iPhone_12_iOS" } (by decide)
  · exact h.2 "Apple_iPhone_12_iOS" .derived
      { cachedDeviceId := some "Apple_iPhone_12_iOS", deviceIdLogged := true,
        storage := some "Apple_iPhone_12_iOS" } (by decide) (by simp) rfl

/-! ## Polling cadence theorems -/

/-- Duration function of a slow poll: every cycle takes 3000 ms, longer
than the 2000 ms cadence. -/
def slowPollDur : Nat → Nat := fun _ => 3000

/-- C8 counterexample: with every poll taking 3000 ms against the
2000 ms `setInterval` cadence, interval cycles 1 and 2 are both in
flight at t = 7000 ms — the timer does not await the asynchronous
callback, so cycles overlap for polls slower than the period, refuting
the claim that at most one cycle is in flight for every poll
duration. -/
theorem c8_counterexample :
    inFlight slowPollDur 1 7000 ∧ inFlight slowPollDur 2 7000 := by
  decide

/-- Two distinct cycles cannot both be in flight when every interval
cycle completes within the 2000 ms period. -/
theorem c8_no_overlap_aux (dur : Nat → Nat)
    (hfast : ∀ i, 1 ≤ i → dur i ≤ 2000) (i j t : Nat) (hij : i < j)
    (hi : inFlight dur i t) (hj : inFlight dur j t) : False := by
  obtain ⟨hi1, hi2⟩ := hi
  obtain ⟨hj1, hj2⟩ := hj
  cases j with
  | zero => omega
  | succ l =>
      cases i with
      | zero =>
          simp [cycleStart] at hi1 hi2 hj1 hj2
          omega
      | succ k =>
          have hk : dur (k + 1) ≤ 2000 := hfast (k + 1) (by omega)
          simp [cycleStart] at hi1 hi2 hj1 hj2
          omega

/-- C8 as amended: the immediate activation poll is awaited before the
interval is installed, and interval ticks start cycles every 2000 ms
regardless of cycle completion; consequently at most one poll cycle is
in flight at any time only under the assumption that every interval
cycle completes within the 2000 ms period (the initial awaited poll may
take arbitrarily long). -/
theorem c8_no_overlap (dur : Nat → Nat)
    (hfast : ∀ i, 1 ≤ i → dur i ≤ 2000)
    (i j t : Nat) (hi : inFlight dur i t) (hj : inFlight dur j t) : i = j := by
  rcases Nat.lt_trichotomy i j with h | h | h
  · exact (c8_no_overlap_aux dur hfast i j t h hi hj).elim
  · exact h
  · exact (c8_no_overlap_aux dur hfast j i t h hj hi).elim

/-- Duration function of a fast poll: every cycle takes 1000 ms, within
the 2000 ms cadence. -/
def fastPollDur : Nat → Nat := fun _ => 1000

/-- Witness for C8 as amended at a concrete input: 1000 ms cycles stay
within the cadence, cycle 1 is in flight at t = 3000 ms, and the
no-overlap theorem applies there. -/
theorem c8_witness :
    (∀ i, 1 ≤ i → fastPollDur i ≤ 2000) ∧ inFlight fastPollDur 1 3000 ∧ 1 = 1 :=
  ⟨fun _ _ => by norm_num [fastPollDur], by decide,
   c8_no_overlap fastPollDur (fun _ _ => by norm_num [fastPollDur]) 1 1 3000
     (by decide) (by decide)⟩

/-! ## Device identifier format theorems -/

/-- Concrete metadata with a hyphenated manufacturer and a spaced model,
exercising the normalization the spec claims. -/
def acmeInfo : DeviceInfo :=
  { manufacturer := some "Acme-Co", modelName := some "Model 1" }

/-- C9 counterexample: for the metadata manufacturer `Acme-Co`, model
`Model 1`, the code derives `Acme-Co_Model_1_iOS` — the hyphen, a
non-alphanumeric character, is preserved rather than normalized to an
underscore, and the platform suffix is the literal `iOS` — which
differs from the spec-format identifier for both running platforms. -/
theorem c9_counterexample :
    generateDeviceId acmeInfo = "Acme-Co_Model_1_iOS" ∧
    generateDeviceId acmeInfo ≠ specDeviceId acmeInfo "ios" ∧
    generateDeviceId acmeInfo ≠ specDeviceId acmeInfo "android" := by
  refine ⟨by decide, by decide, by decide⟩

/-- Whether a string contains a whitespace character. -/
def hasWsChar (s : String) : Bool :=
  s.data.any fun c => c.isWhitespace

/-- String concatenation concatenates the underlying character lists. -/
theorem string_data_append (a b : String) : (a ++ b).data = a.data ++ b.data :=
  rfl

/-- String concatenation is associative on the character lists. -/
theorem string_append_assoc (a b c : String) : a ++ b ++ c = a ++ (b ++ c) :=
  String.ext (by simp [string_data_append, List.append_assoc])

/-- Characters of a string produced by replacing runs satisfying the
whitespace predicate with a whitespace-free replacement are never
whitespace. -/
theorem collapseRunsAux_ws_free (repl : String)
    (hrepl : ∀ x ∈ repl.data, x.isWhitespace = false) (l : List Char) :
    ∀ (b : Bool) (x : Char),
      x ∈ (collapseRunsAux Char.isWhitespace repl l b).data →
      x.isWhitespace = false := by
  induction l with
  | nil => intro b x hx; simp [collapseRunsAux] at hx
  | cons c cs ih =>
      intro b x hx
      by_cases hcw : c.isWhitespace = true
      · simp [collapseRunsAux, hcw, string_data_append] at hx
        rcases hx with hx | hx
        · cases b with
          | true =>
              simp [show ("" : String).data = ([] : List Char) from rfl] at hx
          | false => exact hrepl x (by simpa using hx)
        · exact ih true x hx
      · simp [collapseRunsAux, hcw, string_data_append, String.singleton] at hx
        rcases hx with rfl | hx
        · simpa using hcw
        · exact ih false x hx

/-- Whitespace detection distributes over concatenation. -/
theorem hasWsChar_append (a b : String) :
    hasWsChar (a ++ b) = (hasWsChar a || hasWsChar b) := by
  simp [hasWsChar, string_data_append, List.any_append]

/-- Replacing whitespace runs with a whitespace-free replacement yields
a whitespace-free string. -/
theorem hasWsChar_collapseRuns (repl s : String)
    (hrepl : hasWsChar repl = false) :
    hasWsChar (collapseRuns Char.isWhitespace repl s) = false := by
  rw [hasWsChar, List.any_eq_false] at hrepl ⊢
  intro x hx
  have h := collapseRunsAux_ws_free repl
    (fun y hy => by simpa using hrepl y hy) s.data false x hx
  simp [h]

/-- C9 as amended: the derived identifier is always of the form
`<prefix>_iOS` with the literal platform suffix `iOS` irrespective of
the running platform; only whitespace runs are normalized (removed in
the manufacturer token, replaced by single underscores in the model
token, with defaults `Apple` and `Unknown`), so the identifier never
contains whitespace, while other non-alphanumeric characters pass
through; concretely, manufacturer `Acme Inc` with model
`iPhone  12 Pro` derives `AcmeInc_iPhone_12_Pro_iOS`. -/
theorem c9_device_id_format (info : DeviceInfo) :
    (∃ p, generateDeviceId info = p ++ "_iOS") ∧
    hasWsChar (generateDeviceId info) = false ∧
    generateDeviceId
        { manufacturer := some "Acme Inc", modelName := some "iPhone  12 Pro" } =
      "AcmeInc_iPhone_12_Pro_iOS" := by
  refine ⟨?_, ?_, by decide⟩
  · exact ⟨collapseRuns Char.isWhitespace "" (jsOrStr info.manufacturer "Apple")
      ++ "_" ++ collapseRuns Char.isWhitespace "_" (jsOrStr info.modelName "Unknown"),
      by simp [generateDeviceId, string_append_assoc]⟩
  · have h1 : hasWsChar (collapseRuns Char.isWhitespace ""
        (jsOrStr info.manufacturer "Apple")) = false :=
      hasWsChar_collapseRuns "" _ (by decide)
    have h2 : hasWsChar (collapseRuns Char.isWhitespace "_"
        (jsOrStr info.modelName "Unknown")) = false :=
      hasWsChar_collapseRuns "_" _ (by decide)
    have h3 : hasWsChar "_" = false := by decide
    have h4 : hasWsChar "_iOS" = false := by decide
    simp [generateDeviceId, hasWsChar_append, h1, h2, h3, h4]

end MyExpoApp
